import Mathlib

/-!
Verification of the Video2Doc asynchronous task-orchestration subsystem.

The definitions below are a shallow embedding of the Python sources under
`backend/app/services/queue_service/` (the Celery-based task manager, the
task bodies, the data models) and `backend/app/services/queue_service.py`
(the in-process `QueueService` store).  Python dicts are embedded as
association lists over `String` keys, floats as `ℚ`, and Celery's
documented delivery/`AsyncResult` behaviour is embedded explicitly where a
repository function's meaning depends on it.
-/

namespace Video2Doc

/-- Task status enum from `queue_service/models.py` (`TaskStatus`), a
string-valued enum with lowercase values. -/
inductive TaskStatus where
  | pending
  | started
  | progress
  | success
  | failure
  | retry
  | revoked
deriving DecidableEq, Repr

/-- The string value of each `TaskStatus` member (`models.py` lines 14-20). -/
def TaskStatus.value : TaskStatus → String
  | .pending => "pending"
  | .started => "started"
  | .progress => "progress"
  | .success => "success"
  | .failure => "failure"
  | .retry => "retry"
  | .revoked => "revoked"

/-- Python-enum lookup `TaskStatus(s)`: succeeds exactly on the lowercase
member values of `models.py`; any other string raises `ValueError`
(embedded as `none`).  Enum value lookup in Python is case-sensitive. -/
def TaskStatus.ofString? (s : String) : Option TaskStatus :=
  if s = "pending" then some .pending
  else if s = "started" then some .started
  else if s = "progress" then some .progress
  else if s = "success" then some .success
  else if s = "failure" then some .failure
  else if s = "retry" then some .retry
  else if s = "revoked" then some .revoked
  else none

/-- Task priority enum from `queue_service/models.py` (`TaskPriority`). -/
inductive TaskPriority where
  | low
  | normal
  | high
  | critical
deriving DecidableEq, Repr

/-- The string value of each `TaskPriority` member (`models.py` lines 23-28). -/
def TaskPriority.value : TaskPriority → String
  | .low => "low"
  | .normal => "normal"
  | .high => "high"
  | .critical => "critical"

/-! ### C1: the retry bound of the task bodies (`tasks.py`)

Every task body in `tasks.py` (e.g. `process_video_task`, lines 98-115)
ends its `except` block with

    if self.request.retries < self.max_retries:
        raise self.retry(countdown=..., exc=e)
    self.update_state(state=TaskStatus.FAILURE, meta=error_info)
    raise

Celery's `self.retry` re-delivers the task with `self.request.retries`
incremented by one; `self.request.retries` is `0` on the first delivery.
-/

/-- The outcome of one delivery of a task whose handler body raises on every
attempt: the `except` branch of `process_video_task` (`tasks.py` lines
98-115) either takes the retry branch (when `self.request.retries <
self.max_retries`) or marks the task FAILURE. -/
def failingAttemptOutcome (retries maxRetries : ℕ) : TaskStatus :=
  if retries < maxRetries then TaskStatus.retry else TaskStatus.failure

/-- The full execution of an always-erroring task starting from a delivery
with retry counter `retries`: each retry re-executes with `retries + 1`.
Returns the number of handler executions performed and the final status. -/
def runAlwaysFailing (retries maxRetries : ℕ) : ℕ × TaskStatus :=
  if _h : retries < maxRetries then
    let rest := runAlwaysFailing (retries + 1) maxRetries
    (rest.1 + 1, rest.2)
  else
    (1, TaskStatus.failure)
termination_by maxRetries - retries

/-- `max_retries` configured for `process_video_task` in
`celery_app.py` `task_annotations` (line 87). -/
def process_video_task_max_retries : ℕ := 3

/-- The value of `self.request.retries` at each handler execution of an
always-erroring task, in delivery order, starting from a delivery with
retry counter `retries`. -/
def attemptCounters (retries maxRetries : ℕ) : List ℕ :=
  if _h : retries < maxRetries then retries :: attemptCounters (retries + 1) maxRetries
  else [retries]
termination_by maxRetries - retries

/-! ### Python values and dicts

Python dicts are embedded as association lists with `String` keys whose
key lists stay duplicate-free under the dict operations; floats appearing
in the queue code are exact (`ℚ`). -/

/-- A Python/JSON value as used by the queue subsystem's payloads. -/
inductive PyVal where
  | str (s : String)
  | bool (b : Bool)
  | int (n : ℤ)
  | rat (q : ℚ)
  | pyNone
  | list (xv : List PyVal)
  | dict (d : List (String × PyVal))

/-- A Python dict with string keys (task payloads, task records). -/
abbrev Payload := List (String × PyVal)

/-- Python `d[k]` / `d.get(k)`: the value at the first occurrence of key
`k`. -/
def lookupKey {α : Type} : List (String × α) → String → Option α
  | [], _ => Option.none
  | (k', v) :: rest, k => if k' = k then some v else lookupKey rest k

/-- Python `d[k] = v`: replace the binding of `k` in place, or append a
new binding when `k` is absent. -/
def dictInsert {α : Type} : List (String × α) → String → α → List (String × α)
  | [], k, v => [(k, v)]
  | (k', v') :: rest, k, v =>
      if k' = k then (k, v) :: rest else (k', v') :: dictInsert rest k v

/-- Python `del d[k]`: drop the first binding of `k`. -/
def dictRemove {α : Type} : List (String × α) → String → List (String × α)
  | [], _ => []
  | (k', v') :: rest, k => if k' = k then rest else (k', v') :: dictRemove rest k

/-- The dict invariant: every key occurs at most once. -/
def keysNodup {α : Type} (d : List (String × α)) : Prop :=
  (d.map Prod.fst).Nodup

instance {α : Type} (d : List (String × α)) : Decidable (keysNodup d) := by
  unfold keysNodup
  infer_instance

/-! ### C2: Celery chain argument delivery (`tasks.py`, `task_manager.py`)

`create_video_processing_chain` (`tasks.py` lines 406-448) and
`submit_complete_video_analysis` (`task_manager.py` lines 85-142) build
Celery `chain(...)` workflows out of task signatures `t.s(payload?)`.
Celery's chain protocol delivers the parent task's return value by
*prepending* it to the child signature's pre-supplied positional
arguments (`Signature` partial application); the dict keys are never
merged. -/

/-- Celery chain delivery: the parent's return value is prepended to the
child signature's pre-supplied positional arguments. -/
def chainDeliveredArgs (parentResult : PyVal) (presuppliedArgs : List PyVal) : List PyVal :=
  parentResult :: presuppliedArgs

/-- The value bound to the child task body's first parameter `task_data`:
the first delivered positional argument. -/
def taskDataDelivered (parentResult : PyVal) (presuppliedArgs : List PyVal) : Option PyVal :=
  (chainDeliveredArgs parentResult presuppliedArgs).head?

/-- Written from the SPEC's words, for comparison with the code: "task
i+1 receives task i's `result` merged into its payload" — one payload
holding the pre-supplied keys updated with the result's keys. -/
def specMergedPayload (presupplied result : Payload) : Payload :=
  result.foldl (fun acc kv => dictInsert acc kv.1 kv.2) presupplied

/-- The pre-supplied payload of the `export_document_task.s({...})`
signature in `create_video_processing_chain` (`tasks.py` lines 439-442). -/
def exportPresuppliedPayload : Payload :=
  [("export_formats", PyVal.list [PyVal.str "markdown", PyVal.str "pdf", PyVal.str "html"]),
   ("template", PyVal.str "standard")]

/-- The members of the chain built by `create_video_processing_chain`
(`tasks.py` lines 420-443): task name paired with the signature's
pre-supplied positional arguments. -/
def create_video_processing_chain_sigs (video_file_path output_dir : String) :
    List (String × List PyVal) :=
  [("app.services.queue_service.tasks.process_video_task",
      [PyVal.dict [("video_file_path", PyVal.str video_file_path),
                   ("output_dir", PyVal.str output_dir),
                   ("extract_audio", PyVal.bool true),
                   ("extract_frames", PyVal.bool true)]]),
   ("app.services.queue_service.tasks.transcribe_audio_task", []),
   ("app.services.queue_service.tasks.analyze_images_task", []),
   ("app.services.queue_service.tasks.generate_summary_task", []),
   ("app.services.queue_service.tasks.export_document_task",
      [PyVal.dict exportPresuppliedPayload])]

/-- The pre-supplied payload of the `export_document_task.s({...})`
signature in `submit_complete_video_analysis` (`task_manager.py` lines
129-132). -/
def submit_complete_export_presupplied (export_formats : List String) : Payload :=
  [("export_formats", PyVal.list (export_formats.map PyVal.str)),
   ("template", PyVal.str "standard")]

/-- Default `export_formats` of `submit_complete_video_analysis`
(`task_manager.py` line 98). -/
def submit_complete_default_formats : List String := ["markdown", "html", "pdf"]

/-! ### C3, C6: Celery result backend, `retry_task`, `get_task_status` -/

/-- One record of the Celery result backend, as observed through
`AsyncResult`: the state string (native Celery states are uppercase,
e.g. "PENDING"/"SUCCESS"/"FAILURE"; the custom states written by
`update_state` in this repository are the lowercase `TaskStatus` values),
the registered task name, the submitted args and the stored
result/exc-info. -/
structure BackendRecord where
  state : String
  name : String
  args : List PyVal
  result : Option PyVal

/-- The Celery result backend keyed by task id. -/
abbrev ResultStore := List (String × BackendRecord)

/-- `AsyncResult(task_id).state`: a task id with no backend record
reports the native default state "PENDING". -/
def asyncResultState (store : ResultStore) (task_id : String) : String :=
  ((lookupKey store task_id).map BackendRecord.state).getD "PENDING"

/-- `AsyncResult.failed()`: the state equals the native terminal state
"FAILURE". -/
def asyncResultFailed (store : ResultStore) (task_id : String) : Bool :=
  asyncResultState store task_id = "FAILURE"

/-- `AsyncResult.successful()`: the state equals "SUCCESS". -/
def asyncResultSuccessful (store : ResultStore) (task_id : String) : Bool :=
  asyncResultState store task_id = "SUCCESS"

/-- The record created by `send_task` when `retry_task` resubmits a
failed task with a fresh id: same task name and args, state PENDING. -/
def resubmittedRecord (rec : BackendRecord) : BackendRecord :=
  { state := "PENDING", name := rec.name, args := rec.args, result := Option.none }

/-- `TaskManager.retry_task` (`task_manager.py` lines 238-255): raise
`ValueError("只能重试失败的任务")` unless `AsyncResult(task_id).failed()`,
otherwise resubmit via `send_task` and return the new id.  The error
branch returns no store: the backend is untouched. -/
def retry_task (store : ResultStore) (task_id new_id : String) :
    Except String (String × ResultStore) :=
  match lookupKey store task_id with
  | some rec =>
      if rec.state = "FAILURE" then
        Except.ok (new_id, store ++ [(new_id, resubmittedRecord rec)])
      else Except.error "只能重试失败的任务"
  | Option.none => Except.error "只能重试失败的任务"

/-- The `TaskResult` pydantic model built by
`TaskManager.get_task_status` (`models.py` lines 40-53, restricted to the
fields that method sets). -/
structure TaskResultModel where
  task_id : String
  status : TaskStatus
  result : Option PyVal
  error : Option PyVal
  progressMeta : Option PyVal

/-- `TaskManager.get_task_status` (`task_manager.py` lines 170-187):
builds `TaskResult(task_id=..., status=TaskStatus(result.state), ...)`.
`TaskStatus(result.state)` raises `ValueError` (here `Except.error`) for
any state string that is not one of the lowercase enum values — in
particular for every native uppercase Celery state such as "PENDING".
(The `error` field abstracts Python's `str(result.result)` to the stored
value itself.) -/
def manager_get_task_status (store : ResultStore) (task_id : String) :
    Except String TaskResultModel :=
  let st := asyncResultState store task_id
  match TaskStatus.ofString? st with
  | Option.none => Except.error (st ++ " is not a valid TaskStatus")
  | some s =>
      let res := (lookupKey store task_id).bind BackendRecord.result
      Except.ok
        { task_id := task_id
          status := s
          result := if asyncResultSuccessful store task_id then res else Option.none
          error := if asyncResultFailed store task_id then res else Option.none
          progressMeta :=
            match res with
            | some (PyVal.dict d) =>
                if st = TaskStatus.progress.value then some (PyVal.dict d) else Option.none
            | _ => Option.none }

/-- The HTTP route `GET /tasks/{task_id}/status` (`routers/queue.py`
lines 283-291): any exception from `task_manager.get_task_status` is
converted into `HTTPException(status_code=404, detail="任务不存在: ...")`. -/
def router_get_task_status (store : ResultStore) (task_id : String) :
    Except (ℕ × String) TaskResultModel :=
  match manager_get_task_status store task_id with
  | Except.ok r => Except.ok r
  | Except.error _ => Except.error (404, "任务不存在: " ++ task_id)

/-! ### C4: `generate_task_statistics` (`task_manager.py` lines 346-366) -/

/-- One entry of the worker-stats mapping returned by
`inspect.stats()`, restricted to the fields `get_worker_info` reads. -/
structure WorkerStatEntry where
  hostname : String
  active : List String
  completed : ℕ
  load_avg : List ℚ

/-- The `WorkerInfo` model (`models.py` lines 144-152, fields set by
`get_worker_info`). -/
structure WorkerInfoModel where
  worker_id : String
  hostname : String
  active_tasks : ℕ
  processed_tasks : ℕ
  load_average : List ℚ
  status : String

/-- `TaskManager.get_worker_info` (`task_manager.py` lines 279-299): one
`WorkerInfo` per entry of the stats mapping. -/
def get_worker_info (stats : List (String × WorkerStatEntry)) : List WorkerInfoModel :=
  stats.map fun p =>
    { worker_id := p.1
      hostname := p.2.hostname
      active_tasks := p.2.active.length
      processed_tasks := p.2.completed
      load_average := p.2.load_avg
      status := "online" }

/-- The `TaskStatistics` model (`models.py` lines 131-141). -/
structure TaskStatistics where
  total_tasks : ℕ
  pending_tasks : ℕ
  running_tasks : ℕ
  completed_tasks : ℕ
  failed_tasks : ℕ
  success_rate : ℚ
  average_duration : ℚ
  queue_size : ℕ
  active_workers : ℕ
deriving DecidableEq, Repr

/-- `TaskManager.generate_task_statistics` (`task_manager.py` lines
346-366): returns the literal numbers written in the source
("模拟统计数据" — simulated data; the comment at lines 349-350 says the
real computation from the result store is yet to be implemented); only
`active_workers` is computed, from `get_worker_info`.  The result
backend is never read. -/
def generate_task_statistics (resultStore : ResultStore)
    (workerStats : List (String × WorkerStatEntry)) : TaskStatistics :=
  { total_tasks := 100
    pending_tasks := 5
    running_tasks := 3
    completed_tasks := 85
    failed_tasks := 7
    success_rate := 92.4
    average_duration := 45.2
    queue_size := 8
    active_workers := (get_worker_info workerStats).length }

/-- The task-derived counters of a statistics snapshot (everything except
`active_workers`). -/
def taskCounters (s : TaskStatistics) : ℕ × ℕ × ℕ × ℕ × ℕ × ℚ × ℚ × ℕ :=
  (s.total_tasks, s.pending_tasks, s.running_tasks, s.completed_tasks,
   s.failed_tasks, s.success_rate, s.average_duration, s.queue_size)

/-- The number of task records actually present in the result backend. -/
def storeTaskCount (store : ResultStore) : ℕ := store.length

/-! ### C5: `purge_queue` (`task_manager.py` lines 406-411) -/

/-- The broker: named queues each holding a list of waiting messages
(identified here by their task ids). -/
abbrev Broker := List (String × List String)

/-- Celery `app.control.purge()`: discards the waiting messages of every
configured queue (the task consumer purges each queue it consumes from)
and returns the total number discarded.  No queue name is an input. -/
def control_purge (b : Broker) : ℕ × Broker :=
  ((b.map fun q => q.2.length).sum, b.map fun q => (q.1, ([] : List String)))

/-- `TaskManager.purge_queue` (`task_manager.py` lines 406-411): calls
`self.celery_app.control.purge()`; the `queue_name` argument is never
used. -/
def purge_queue (b : Broker) (queue_name : String) : ℕ × Broker :=
  control_purge b

/-! ### C7: `update_task_progress` (`tasks.py` lines 22-35) -/

/-- The `TaskProgress` pydantic model (`models.py` lines 31-37,
fields set by `update_task_progress`). -/
structure TaskProgressModel where
  current : ℤ
  total : ℤ
  percentage : ℚ
  message : Option String
deriving DecidableEq, Repr

/-- `percentage=(current / total) * 100 if total > 0 else 0` (`tasks.py`
line 28); Python `/` on ints is exact division, embedded in `ℚ`. -/
def progressPercentage (current total : ℤ) : ℚ :=
  if 0 < total then ((current : ℚ) / (total : ℚ)) * 100 else 0

/-- pydantic validation of `TaskProgress`: `percentage` carries
`ge=0.0, le=100.0` (`models.py` line 35); construction raises
`ValidationError` (here `none`) outside those bounds. -/
def TaskProgressModel.build? (current total : ℤ) (percentage : ℚ)
    (message : Option String) : Option TaskProgressModel :=
  if 0 ≤ percentage ∧ percentage ≤ 100 then
    some { current := current, total := total, percentage := percentage, message := message }
  else Option.none

/-- `update_task_progress` (`tasks.py` lines 22-35) on the path where
`current_task` is set (i.e. while a task executes): builds a
`TaskProgress` and writes it via
`current_task.update_state(state=TaskStatus.PROGRESS, meta=...)`.
Returns the state and meta written, or `none` when the model validation
raises so that nothing is recorded. -/
def update_task_progress (current total : ℤ) (message : Option String) :
    Option (TaskStatus × TaskProgressModel) :=
  (TaskProgressModel.build? current total (progressPercentage current total) message).map
    fun p => (TaskStatus.progress, p)

/-! ### C8: `_get_priority_value` and submission (`task_manager.py`) -/

/-- `TaskManager._get_priority_value` (`task_manager.py` lines 370-378):
`priority_map.get(priority, 6)` over the string-valued `TaskPriority`
enum; any key outside the map yields the default 6. -/
def get_priority_value (priority : String) : ℕ :=
  if priority = TaskPriority.low.value then 3
  else if priority = TaskPriority.normal.value then 6
  else if priority = TaskPriority.high.value then 9
  else if priority = TaskPriority.critical.value then 10
  else 6

/-- The enqueue request handed to the broker by `apply_async`. -/
structure EnqueueRequest where
  task_name : String
  task_id : String
  queue : String
  priority : ℕ
deriving DecidableEq, Repr

/-- `TaskManager.submit_video_processing` (`task_manager.py` lines
33-41): `process_video_task.apply_async(args=[task_params.dict()],
task_id=..., queue='video_processing',
priority=self._get_priority_value(task_params.priority))`. -/
def submit_video_processing (task_id : String) (priority : TaskPriority) : EnqueueRequest :=
  { task_name := "app.services.queue_service.tasks.process_video_task"
    task_id := task_id
    queue := "video_processing"
    priority := get_priority_value priority.value }

/-- Modelled from the spec: "higher dequeues first within a queue" — the
broker (Redis through Celery, outside `src/`) delivers the request with
the larger `priority` ordinal first when both sit in the same queue. -/
def dequeuesBefore (a b : EnqueueRequest) : Prop :=
  a.queue = b.queue ∧ b.priority < a.priority

/-! ### C9, C10: the in-process `QueueService` store
(`backend/app/services/queue_service.py`) -/

/-- The in-memory task store `self.tasks: Dict[str, Dict[str, Any]]`
(`queue_service.py` line 43). -/
abbrev QSStore := List (String × Payload)

/-- The timestamp stamping done by `create_task` (`queue_service.py`
lines 121-123): `task_data["created_at"] = now;
task_data["updated_at"] = now`. -/
def stampTimestamps (task_data : Payload) (now : String) : Payload :=
  dictInsert (dictInsert task_data "created_at" (PyVal.str now)) "updated_at" (PyVal.str now)

/-- `QueueService.create_task` (`queue_service.py` lines 106-130):
`task_id = task_data.get("task_id"); if not task_id: raise ValueError`,
then stamp timestamps and store `self.tasks[task_id] = task_data`.
Task ids in this repository are strings; an absent or empty (falsy) id
raises. -/
def create_task (tasks : QSStore) (task_data : Payload) (now : String) :
    Except String (String × QSStore) :=
  match lookupKey task_data "task_id" with
  | some (PyVal.str tid) =>
      if tid = "" then Except.error "任务数据必须包含task_id"
      else Except.ok (tid, dictInsert tasks tid (stampTimestamps task_data now))
  | _ => Except.error "任务数据必须包含task_id"

/-- The record produced by `QueueService.update_task_status`
(`queue_service.py` lines 168-177) for a stored task: always writes
`status`, `progress`, `updated_at`; writes `message` only when the
`message` argument is truthy (non-empty) and `error_message` only when
the `error` argument is truthy. -/
def updatedTaskRecord (task : Payload) (status : String) (progressArg : ℚ)
    (message error now : String) : Payload :=
  let t := dictInsert task "status" (PyVal.str status)
  let t := dictInsert t "progress" (PyVal.rat progressArg)
  let t := dictInsert t "updated_at" (PyVal.str now)
  let t := if message ≠ "" then dictInsert t "message" (PyVal.str message) else t
  if error ≠ "" then dictInsert t "error_message" (PyVal.str error) else t

/-- `QueueService.update_task_status` (`queue_service.py` lines 153-185):
a warning-only no-op when `task_id` is absent; otherwise the stored
record is updated in place. -/
def qs_update_task_status (tasks : QSStore) (task_id status : String) (progressArg : ℚ)
    (message error now : String) : QSStore :=
  match lookupKey tasks task_id with
  | Option.none => tasks
  | some task =>
      dictInsert tasks task_id (updatedTaskRecord task status progressArg message error now)

/-- `QueueService.delete_task` (`queue_service.py` lines 187-212):
returns `False` when absent, otherwise deletes the record. -/
def delete_task (tasks : QSStore) (task_id : String) : Bool × QSStore :=
  match lookupKey tasks task_id with
  | Option.none => (false, tasks)
  | some _ => (true, dictRemove tasks task_id)

/-- One `QueueService` store operation. -/
inductive QOp where
  | create (task_data : Payload) (now : String)
  | updateStatus (task_id status : String) (progressArg : ℚ) (message error now : String)
  | delete (task_id : String)

/-- Apply one operation to the store (a raised `ValueError` in
`create_task` leaves the store untouched). -/
def applyOp (tasks : QSStore) : QOp → QSStore
  | QOp.create td now =>
      match create_task tasks td now with
      | Except.ok r => r.2
      | Except.error _ => tasks
  | QOp.updateStatus tid st p m e now => qs_update_task_status tasks tid st p m e now
  | QOp.delete tid => (delete_task tasks tid).2

/-- Apply a sequence of operations. -/
def applyOps (tasks : QSStore) (ops : List QOp) : QSStore :=
  ops.foldl applyOp tasks

/-- A concrete backend record of a failed task. -/
def demoFailedRecord : BackendRecord :=
  { state := "FAILURE", name := "app.services.queue_service.tasks.process_video_task",
    args := [PyVal.dict [("video_file_path", PyVal.str "v.mp4")]],
    result := some (PyVal.str "boom") }

/-- A concrete backend record of a succeeded task. -/
def demoOkRecord : BackendRecord :=
  { state := "SUCCESS", name := "app.services.queue_service.tasks.process_video_task",
    args := [], result := some (PyVal.dict []) }

/-- A concrete result backend used to instantiate the facade theorems:
one failed task and one succeeded task. -/
def demoResultStore : ResultStore :=
  [("t_failed", demoFailedRecord), ("t_ok", demoOkRecord)]

/-- A concrete broker used to instantiate the purge theorems: one message
in each of two queues. -/
def demoBroker : Broker :=
  [("video_processing", ["m1"]), ("audio_transcription", ["m2"])]

/-- A concrete `QueueService` store with a single task record. -/
def demoTaskRecord : Payload :=
  [("task_id", PyVal.str "t1"), ("status", PyVal.str "pending"),
   ("video_url", PyVal.str "http://v"), ("progress", PyVal.rat 0)]

/-- A concrete `QueueService` store holding `demoTaskRecord`. -/
def demoQSStore : QSStore := [("t1", demoTaskRecord)]

/-- A concrete operation sequence on the `QueueService` store, ending
with a `create_task` on the already-present id `"t1"`. -/
def demoOps : List QOp :=
  [QOp.create [("task_id", PyVal.str "t2"), ("status", PyVal.str "pending")] "2026-01-01T00:00:00",
   QOp.updateStatus "t1" "completed" 1 "done" "" "2026-01-01T01:00:00",
   QOp.delete "t2",
   QOp.create demoTaskRecord "2026-01-02T00:00:00"]

/-! ## Helper lemmas on the dict embedding -/

theorem lookupKey_dictInsert_self {α : Type} (d : List (String × α)) (k : String) (v : α) :
    lookupKey (dictInsert d k v) k = some v := by
  induction d with
  | nil => simp [dictInsert, lookupKey]
  | cons hd tl ih =>
    obtain ⟨k', v'⟩ := hd
    by_cases h : k' = k
    · simp [dictInsert, h, lookupKey]
    · simp [dictInsert, h, lookupKey, ih]

theorem lookupKey_dictInsert_ne {α : Type} (d : List (String × α)) (k k' : String) (v : α)
    (h : k' ≠ k) : lookupKey (dictInsert d k v) k' = lookupKey d k' := by
  have hk : ¬ k = k' := fun hk => h hk.symm
  induction d with
  | nil => simp [dictInsert, lookupKey, hk]
  | cons hd tl ih =>
    obtain ⟨k₀, v₀⟩ := hd
    by_cases h0 : k₀ = k
    · subst h0
      simp [dictInsert, lookupKey, h, hk]
    · by_cases h1 : k₀ = k'
      · simp [dictInsert, h0, lookupKey, h1, h, hk]
      · simp [dictInsert, h0, lookupKey, h1, ih]

theorem mem_keys_dictInsert {α : Type} (d : List (String × α)) (k x : String) (v : α) :
    x ∈ (dictInsert d k v).map Prod.fst ↔ x = k ∨ x ∈ d.map Prod.fst := by
  induction d with
  | nil => simp [dictInsert]
  | cons hd tl ih =>
    obtain ⟨k₀, v₀⟩ := hd
    by_cases h0 : k₀ = k
    · subst h0
      simp [dictInsert]
    · simp [dictInsert, h0, ih]
      tauto

theorem keysNodup_dictInsert {α : Type} (d : List (String × α)) (k : String) (v : α)
    (h : keysNodup d) : keysNodup (dictInsert d k v) := by
  induction d with
  | nil => simp [keysNodup, dictInsert]
  | cons hd tl ih =>
    obtain ⟨k₀, v₀⟩ := hd
    simp only [keysNodup, List.map_cons, List.nodup_cons] at h
    by_cases h0 : k₀ = k
    · subst h0
      simpa [keysNodup, dictInsert] using h
    · have htl := ih h.2
      have hins : dictInsert ((k₀, v₀) :: tl) k v = (k₀, v₀) :: dictInsert tl k v := by
        simp [dictInsert, h0]
      rw [hins]
      simp only [keysNodup, List.map_cons, List.nodup_cons]
      refine ⟨?_, htl⟩
      rw [mem_keys_dictInsert]
      rintro (rfl | hmem)
      · exact h0 rfl
      · exact h.1 hmem

theorem keys_dictRemove_sublist {α : Type} (d : List (String × α)) (k : String) :
    ((dictRemove d k).map Prod.fst).Sublist (d.map Prod.fst) := by
  induction d with
  | nil => simp [dictRemove]
  | cons hd tl ih =>
    obtain ⟨k₀, v₀⟩ := hd
    by_cases h0 : k₀ = k
    · simp only [dictRemove, h0, if_pos]
      exact (List.sublist_cons_self _ _)
    · simpa [dictRemove, h0] using ih.cons₂ k₀

theorem keysNodup_dictRemove {α : Type} (d : List (String × α)) (k : String)
    (h : keysNodup d) : keysNodup (dictRemove d k) :=
  h.sublist (keys_dictRemove_sublist d k)

theorem dictInsert_length_of_isSome {α : Type} (d : List (String × α)) (k : String) (v : α)
    (h : (lookupKey d k).isSome) : (dictInsert d k v).length = d.length := by
  induction d with
  | nil => simp [lookupKey] at h
  | cons hd tl ih =>
    obtain ⟨k₀, v₀⟩ := hd
    by_cases h0 : k₀ = k
    · simp [dictInsert, h0]
    · simp only [lookupKey, h0, if_neg] at h
      simp [dictInsert, h0, ih h]

theorem lookupKey_map_snd {α β : Type} (d : List (String × α)) (f : α → β) (k : String) :
    lookupKey (d.map fun p => (p.1, f p.2)) k = (lookupKey d k).map f := by
  induction d with
  | nil => simp [lookupKey]
  | cons hd tl ih =>
    obtain ⟨k₀, v₀⟩ := hd
    by_cases h0 : k₀ = k
    · simp [lookupKey, h0]
    · simp [lookupKey, h0, ih]

theorem lookupKey_specMergedPayload_of_absent (p r : Payload) (k : String)
    (h : lookupKey r k = Option.none) :
    lookupKey (specMergedPayload p r) k = lookupKey p k := by
  induction r generalizing p with
  | nil => simp [specMergedPayload]
  | cons hd tl ih =>
    obtain ⟨k₀, v₀⟩ := hd
    by_cases h0 : k₀ = k
    · simp [lookupKey, h0] at h
    · simp only [lookupKey, h0, if_neg] at h
      have := ih (dictInsert p k₀ v₀) h
      simp only [specMergedPayload, List.foldl_cons] at this ⊢
      rw [this, lookupKey_dictInsert_ne _ _ _ _ (fun hk => h0 hk.symm)]

theorem lookupKey_dictInsert {α : Type} (d : List (String × α)) (k k' : String) (v : α) :
    lookupKey (dictInsert d k v) k' = if k = k' then some v else lookupKey d k' := by
  by_cases h : k = k'
  · subst h
    simp [lookupKey_dictInsert_self]
  · simp [h, lookupKey_dictInsert_ne d k k' v (fun hk => h hk.symm)]

theorem keysNodup_applyOp (tasks : QSStore) (op : QOp) (h : keysNodup tasks) :
    keysNodup (applyOp tasks op) := by
  cases op with
  | create td now =>
    simp only [applyOp]
    split
    · next r heq =>
      unfold create_task at heq
      split at heq
      · split at heq
        · exact absurd heq (by simp)
        · cases heq
          exact keysNodup_dictInsert _ _ _ h
      · exact absurd heq (by simp)
    · exact h
  | updateStatus tid st p m e now =>
    simp only [applyOp, qs_update_task_status]
    split
    · exact h
    · exact keysNodup_dictInsert _ _ _ h
  | delete tid =>
    simp only [applyOp, delete_task]
    split
    · exact h
    · exact keysNodup_dictRemove _ _ h

theorem keysNodup_applyOps (ops : List QOp) :
    ∀ tasks : QSStore, keysNodup tasks → keysNodup (applyOps tasks ops) := by
  induction ops with
  | nil => exact fun tasks h => h
  | cons op rest ih =>
    exact fun tasks h => ih (applyOp tasks op) (keysNodup_applyOp tasks op h)

/-! ## Helper lemmas on the retry recursion -/

theorem runAlwaysFailing_eq (d : ℕ) :
    ∀ retries maxRetries : ℕ, maxRetries = retries + d →
      runAlwaysFailing retries maxRetries = (d + 1, TaskStatus.failure) := by
  induction d with
  | zero =>
    intro retries maxRetries h
    subst h
    rw [runAlwaysFailing]
    simp
  | succ n ih =>
    intro retries maxRetries h
    subst h
    rw [runAlwaysFailing]
    have hlt : retries < retries + (n + 1) := by omega
    have := ih (retries + 1) (retries + (n + 1)) (by omega)
    simp [hlt, this]

theorem attemptCounters_mem_le (d : ℕ) :
    ∀ retries maxRetries : ℕ, maxRetries = retries + d →
      ∀ c ∈ attemptCounters retries maxRetries, c ≤ maxRetries := by
  induction d with
  | zero =>
    intro retries maxRetries h c hc
    subst h
    rw [attemptCounters] at hc
    simp at hc
    omega
  | succ n ih =>
    intro retries maxRetries h c hc
    subst h
    rw [attemptCounters] at hc
    have hlt : retries < retries + (n + 1) := by omega
    simp only [hlt, dif_pos, List.mem_cons] at hc
    rcases hc with rfl | hc
    · omega
    · exact ih (retries + 1) (retries + (n + 1)) (by omega) c hc

theorem attemptCounters_length (d : ℕ) :
    ∀ retries maxRetries : ℕ, maxRetries = retries + d →
      (attemptCounters retries maxRetries).length = d + 1 := by
  induction d with
  | zero =>
    intro retries maxRetries h
    subst h
    rw [attemptCounters]
    simp
  | succ n ih =>
    intro retries maxRetries h
    subst h
    rw [attemptCounters]
    have hlt : retries < retries + (n + 1) := by omega
    have := ih (retries + 1) (retries + (n + 1)) (by omega)
    simp [hlt, this]

/-! ## Claim theorems -/

/-- C1: a task whose handler errors on every attempt is executed exactly
`max_retries + 1` times and ends in terminal status FAILURE; the retry
branch of the `except` block is taken iff `self.request.retries <
self.max_retries`, the retry counter observed at any execution never
exceeds `max_retries`, and past the bound the outcome is FAILURE, never
RETRY.  With `process_video_task`'s configured `max_retries = 3` this is
exactly 4 executions. -/
theorem C1_retry_bound (maxRetries : ℕ) :
    runAlwaysFailing 0 maxRetries = (maxRetries + 1, TaskStatus.failure) ∧
    (∀ retries, failingAttemptOutcome retries maxRetries = TaskStatus.retry ↔
        retries < maxRetries) ∧
    (∀ retries, maxRetries ≤ retries →
        failingAttemptOutcome retries maxRetries = TaskStatus.failure) ∧
    (∀ c ∈ attemptCounters 0 maxRetries, c ≤ maxRetries) ∧
    (attemptCounters 0 maxRetries).length = (runAlwaysFailing 0 maxRetries).1 ∧
    runAlwaysFailing 0 process_video_task_max_retries = (4, TaskStatus.failure) := by
  refine ⟨runAlwaysFailing_eq maxRetries 0 maxRetries (by omega), ?_, ?_, ?_, ?_, ?_⟩
  · intro retries
    constructor
    · intro h
      by_contra hlt
      simp [failingAttemptOutcome, hlt] at h
    · intro h
      simp [failingAttemptOutcome, h]
  · intro retries h
    have : ¬ retries < maxRetries := by omega
    simp [failingAttemptOutcome, this]
  · exact attemptCounters_mem_le maxRetries 0 maxRetries (by omega)
  · rw [attemptCounters_length maxRetries 0 maxRetries (by omega),
        runAlwaysFailing_eq maxRetries 0 maxRetries (by omega)]
  · exact runAlwaysFailing_eq 3 0 3 rfl

/-- C1 witness: at `max_retries = 3` the always-failing task runs 4 times
and fails, and the counter bound holds at the concrete counter 3. -/
theorem C1_retry_bound_witness :
    runAlwaysFailing 0 3 = (4, TaskStatus.failure) ∧
    failingAttemptOutcome 3 3 = TaskStatus.failure ∧
    3 ∈ attemptCounters 0 3 ∧ 3 ≤ 3 := by
  have hmem : 3 ∈ attemptCounters 0 3 := by simp [attemptCounters]
  exact ⟨(C1_retry_bound 3).1, (C1_retry_bound 3).2.2.1 3 (by omega), hmem,
         (C1_retry_bound 3).2.2.2.1 3 hmem⟩

/-- C2 counterexample: in the chain built by
`create_video_processing_chain`, the member `export_document_task` has
the pre-supplied payload `{export_formats, template}`; when the previous
member returns the payload `{"summary": "s"}`, the payload delivered to
its `task_data` parameter is that result alone — not the merge of the two
key sets the claim requires (the merge contains `export_formats`, the
delivered payload does not). -/
theorem C2_chain_counterexample :
    taskDataDelivered (PyVal.dict [("summary", PyVal.str "s")])
        [PyVal.dict exportPresuppliedPayload]
      = some (PyVal.dict [("summary", PyVal.str "s")]) ∧
    specMergedPayload exportPresuppliedPayload [("summary", PyVal.str "s")]
      = [("export_formats",
            PyVal.list [PyVal.str "markdown", PyVal.str "pdf", PyVal.str "html"]),
         ("template", PyVal.str "standard"), ("summary", PyVal.str "s")] ∧
    lookupKey [("summary", PyVal.str "s")] "export_formats" = (Option.none : Option PyVal) ∧
    taskDataDelivered (PyVal.dict [("summary", PyVal.str "s")])
        [PyVal.dict exportPresuppliedPayload]
      ≠ some (PyVal.dict (specMergedPayload exportPresuppliedPayload
          [("summary", PyVal.str "s")])) := by
  refine ⟨rfl, rfl, rfl, ?_⟩
  intro h
  simp only [taskDataDelivered, chainDeliveredArgs, List.head?, Option.some.injEq,
             PyVal.dict.injEq] at h
  have hr := congrArg (fun l => lookupKey l "export_formats") h
  simp [specMergedPayload, exportPresuppliedPayload, dictInsert, lookupKey] at hr

/-- C2 amended: along every chain built by
`create_video_processing_chain` (and for the pre-supplied export payload
of `submit_complete_video_analysis`), task i's result is delivered to
task i+1 by being *prepended* as an extra positional argument before the
pre-supplied payload, so the `task_data` parameter is bound to task i's
result alone; the two key sets are never merged into one payload, and
whenever the result lacks a pre-supplied key the delivered payload
provably differs from the spec's merged payload. -/
theorem C2_chain_amended (video_file_path output_dir : String) (r : Payload)
    (export_formats : List String) :
    (∀ sig ∈ create_video_processing_chain_sigs video_file_path output_dir,
        chainDeliveredArgs (PyVal.dict r) sig.2 = PyVal.dict r :: sig.2 ∧
        taskDataDelivered (PyVal.dict r) sig.2 = some (PyVal.dict r)) ∧
    taskDataDelivered (PyVal.dict r)
        [PyVal.dict (submit_complete_export_presupplied export_formats)]
      = some (PyVal.dict r) ∧
    (lookupKey r "export_formats" = Option.none →
        taskDataDelivered (PyVal.dict r) [PyVal.dict exportPresuppliedPayload]
          ≠ some (PyVal.dict (specMergedPayload exportPresuppliedPayload r))) := by
  refine ⟨fun sig _ => ⟨rfl, rfl⟩, rfl, ?_⟩
  intro habs h
  simp only [taskDataDelivered, chainDeliveredArgs, List.head?, Option.some.injEq,
             PyVal.dict.injEq] at h
  have hr := congrArg (fun l => lookupKey l "export_formats") h
  dsimp only at hr
  rw [lookupKey_specMergedPayload_of_absent _ _ _ habs] at hr
  rw [habs] at hr
  simp [exportPresuppliedPayload, lookupKey] at hr

/-- C2 witness for the amended claim at a concrete result payload. -/
theorem C2_chain_amended_witness :
    lookupKey [("summary", PyVal.str "x")] "export_formats" = (Option.none : Option PyVal) ∧
    taskDataDelivered (PyVal.dict [("summary", PyVal.str "x")])
        [PyVal.dict exportPresuppliedPayload]
      ≠ some (PyVal.dict (specMergedPayload exportPresuppliedPayload
          [("summary", PyVal.str "x")])) :=
  ⟨rfl, (C2_chain_amended "v.mp4" "out" [("summary", PyVal.str "x")] ["markdown"]).2.2 rfl⟩

/-- C3: `retry_task` rejects the call synchronously with the
invalid-state `ValueError` — producing no new store — whenever the task's
current backend state is not FAILURE (including unknown task ids, which
report PENDING); only for a task in state FAILURE does it resubmit the
original task under the fresh id and return that id. -/
theorem C3_retry_rejects_non_failure (store : ResultStore) (task_id new_id : String) :
    (asyncResultFailed store task_id = false →
        retry_task store task_id new_id = Except.error "只能重试失败的任务") ∧
    (∀ rec, lookupKey store task_id = some rec → rec.state = "FAILURE" →
        retry_task store task_id new_id =
          Except.ok (new_id, store ++ [(new_id, resubmittedRecord rec)])) := by
  constructor
  · intro hfail
    cases hl : lookupKey store task_id with
    | none => simp [retry_task, hl]
    | some rec =>
      simp [asyncResultFailed, asyncResultState, hl] at hfail
      simp [retry_task, hl, hfail]
  · intro rec hl hstate
    simp [retry_task, hl, hstate]

/-- C3 witness: at a concrete backend, a SUCCESS task is rejected and a
FAILURE task is resubmitted under the fresh id. -/
theorem C3_retry_witness :
    asyncResultFailed demoResultStore "t_ok" = false ∧
    retry_task demoResultStore "t_ok" "new1" = Except.error "只能重试失败的任务" ∧
    lookupKey demoResultStore "t_failed" = some demoFailedRecord ∧
    demoFailedRecord.state = "FAILURE" ∧
    retry_task demoResultStore "t_failed" "new1" =
      Except.ok ("new1", demoResultStore ++ [("new1", resubmittedRecord demoFailedRecord)]) := by
  refine ⟨rfl, ?_, rfl, rfl, ?_⟩
  · exact (C3_retry_rejects_non_failure demoResultStore "t_ok" "new1").1 rfl
  · exact (C3_retry_rejects_non_failure demoResultStore "t_failed" "new1").2
      demoFailedRecord rfl rfl

/-- C4: evaluation of `generate_task_statistics` at the failing input —
an empty result backend with no workers.  The code returns the literal
task counters 100/5/3/85/7/92.4/45.2/8 written in the source even though
the backend holds zero tasks, and the counters are identical for every
backend/worker state; only `active_workers` depends on the input.  This
contradicts the claim (and the code's own comment, which says the values
are simulated pending a real computation from the result store). -/
theorem C4_statistics_constant :
    generate_task_statistics [] [] =
      { total_tasks := 100, pending_tasks := 5, running_tasks := 3, completed_tasks := 85,
        failed_tasks := 7, success_rate := 92.4, average_duration := 45.2, queue_size := 8,
        active_workers := 0 } ∧
    storeTaskCount ([] : ResultStore) = 0 ∧
    (∀ (s₁ s₂ : ResultStore) (w₁ w₂ : List (String × WorkerStatEntry)),
        taskCounters (generate_task_statistics s₁ w₁) =
          taskCounters (generate_task_statistics s₂ w₂)) ∧
    taskCounters (generate_task_statistics demoResultStore []) =
      taskCounters (generate_task_statistics [] []) := by
  exact ⟨rfl, rfl, fun s₁ s₂ w₁ w₂ => rfl, rfl⟩

/-- C5 counterexample: on a broker holding one message in
`video_processing` and one in `audio_transcription`,
`purge_queue("video_processing")` empties *both* queues and returns 2 —
not the claimed result of removing only the named queue's single message
and leaving the other queue unchanged. -/
theorem C5_purge_counterexample :
    purge_queue demoBroker "video_processing"
      = (2, [("video_processing", []), ("audio_transcription", [])]) ∧
    lookupKey demoBroker "audio_transcription" = some ["m2"] ∧
    purge_queue demoBroker "video_processing"
      ≠ (1, [("video_processing", []), ("audio_transcription", ["m2"])]) := by
  refine ⟨rfl, rfl, ?_⟩
  decide

/-- C5 amended: `purge_queue(queue_name)` ignores `queue_name` — it calls
`control.purge()`, which discards the waiting messages of *every* queue
and returns the total number discarded across all queues. -/
theorem C5_purge_amended (b : Broker) (queue_name : String) :
    (purge_queue b queue_name).1 = (b.map fun q => q.2.length).sum ∧
    (∀ q, lookupKey (purge_queue b queue_name).2 q
        = (lookupKey b q).map fun _ => ([] : List String)) ∧
    purge_queue b queue_name = control_purge b := by
  refine ⟨rfl, ?_, rfl⟩
  intro q
  exact lookupKey_map_snd b (fun _ => ([] : List String)) q

/-- C6: the status route fails with a 404 not-found error when no backend
record exists for `task_id` (an unknown id reports the native state
"PENDING", which is not a lowercase `TaskStatus` value, so the manager
raises and the router answers 404); a `TaskResult` is returned only for a
task id that has been submitted. -/
theorem C6_get_status_not_found (store : ResultStore) (task_id : String) :
    (lookupKey store task_id = Option.none →
        router_get_task_status store task_id
          = Except.error (404, "任务不存在: " ++ task_id)) ∧
    (∀ r, router_get_task_status store task_id = Except.ok r →
        (lookupKey store task_id).isSome) := by
  constructor
  · intro h
    have hstate : asyncResultState store task_id = "PENDING" := by
      simp [asyncResultState, h]
    have hnone : TaskStatus.ofString? "PENDING" = Option.none := rfl
    simp [router_get_task_status, manager_get_task_status, hstate, hnone]
  · intro r hok
    cases hl : lookupKey store task_id with
    | some _ => simp
    | none =>
      have hstate : asyncResultState store task_id = "PENDING" := by
        simp [asyncResultState, hl]
      have hnone : TaskStatus.ofString? "PENDING" = Option.none := rfl
      simp [router_get_task_status, manager_get_task_status, hstate, hnone] at hok

/-- C6 witness: the unknown id `"missing"` on an empty backend yields the
404 not-found error. -/
theorem C6_get_status_witness :
    lookupKey ([] : ResultStore) "missing" = (Option.none : Option BackendRecord) ∧
    router_get_task_status ([] : ResultStore) "missing"
      = Except.error (404, "任务不存在: " ++ "missing") :=
  ⟨rfl, (C6_get_status_not_found ([] : ResultStore) "missing").1 rfl⟩

/-- C7 counterexample: `update_task_progress(150, 100)` computes
percentage `(150/100)*100 = 150`; the pydantic bound `le=100` then
rejects the `TaskProgress`, so the call raises and records nothing —
contradicting the claim that every call records progress and sets status
PROGRESS. -/
theorem C7_progress_counterexample :
    progressPercentage 150 100 = 150 ∧
    update_task_progress 150 100 Option.none = Option.none := by
  have hp : progressPercentage 150 100 = 150 := by
    norm_num [progressPercentage]
  refine ⟨hp, ?_⟩
  norm_num [update_task_progress, TaskProgressModel.build?, hp]

/-- C7 amended: a call to `update_task_progress(current, total, message)`
made while a task executes records progress with status PROGRESS and
percentage `(current/total)*100` when `total > 0` and `0` when
`total ≤ 0` (the division is guarded), *provided* that percentage lies in
the model bound `0 ≤ percentage ≤ 100`; a call whose computed percentage
falls outside the bound fails pydantic validation and records nothing.
Whatever is recorded always satisfies the bound. -/
theorem C7_progress_amended (current total : ℤ) (message : Option String) :
    (0 ≤ progressPercentage current total ∧ progressPercentage current total ≤ 100 →
        update_task_progress current total message =
          some (TaskStatus.progress,
            { current := current, total := total,
              percentage := progressPercentage current total, message := message })) ∧
    (¬ (0 ≤ progressPercentage current total ∧ progressPercentage current total ≤ 100) →
        update_task_progress current total message = Option.none) ∧
    (total ≤ 0 → progressPercentage current total = 0) ∧
    (∀ st pr, update_task_progress current total message = some (st, pr) →
        st = TaskStatus.progress ∧
        pr.percentage = progressPercentage current total ∧
        0 ≤ pr.percentage ∧ pr.percentage ≤ 100) := by
  refine ⟨?_, ?_, ?_, ?_⟩
  · intro h
    simp [update_task_progress, TaskProgressModel.build?, h]
  · intro h
    simp [update_task_progress, TaskProgressModel.build?, h]
  · intro h
    have hnot : ¬ (0 < total) := by omega
    simp [progressPercentage, hnot]
  · intro st pr h
    by_cases hb : 0 ≤ progressPercentage current total ∧ progressPercentage current total ≤ 100
    · rw [update_task_progress, TaskProgressModel.build?, if_pos hb] at h
      simp only [Option.map, Option.some.injEq, Prod.mk.injEq] at h
      obtain ⟨h1, h2⟩ := h
      subst h1
      subst h2
      exact ⟨rfl, rfl, hb.1, hb.2⟩
    · rw [update_task_progress, TaskProgressModel.build?, if_neg hb] at h
      simp [Option.map] at h

/-- C7 witness for the amended claim: `update_task_progress(50, 100)` has
percentage 50, in bounds, and records PROGRESS with that percentage. -/
theorem C7_progress_witness :
    (0 ≤ progressPercentage 50 100 ∧ progressPercentage 50 100 ≤ 100) ∧
    update_task_progress 50 100 Option.none =
      some (TaskStatus.progress,
        { current := 50, total := 100,
          percentage := progressPercentage 50 100, message := Option.none }) := by
  have hb : 0 ≤ progressPercentage 50 100 ∧ progressPercentage 50 100 ≤ 100 := by
    norm_num [progressPercentage]
  exact ⟨hb, (C7_progress_amended 50 100 Option.none).1 hb⟩

/-- C8: the priority map used at submission returns exactly 3 for LOW, 6
for NORMAL, 9 for HIGH, 10 for CRITICAL, and 6 for any value outside the
enum; `submit_video_processing` passes exactly this ordinal to the broker
as the `priority` of its enqueue request, and under the spec's
higher-first dequeue rule CRITICAL dequeues before HIGH before NORMAL
before LOW within the queue. -/
theorem C8_priority_map (p : TaskPriority) (s task_id : String) :
    get_priority_value TaskPriority.low.value = 3 ∧
    get_priority_value TaskPriority.normal.value = 6 ∧
    get_priority_value TaskPriority.high.value = 9 ∧
    get_priority_value TaskPriority.critical.value = 10 ∧
    (s ∉ [TaskPriority.low.value, TaskPriority.normal.value, TaskPriority.high.value,
          TaskPriority.critical.value] → get_priority_value s = 6) ∧
    (submit_video_processing task_id p).priority = get_priority_value p.value ∧
    dequeuesBefore (submit_video_processing task_id TaskPriority.critical)
      (submit_video_processing task_id TaskPriority.high) ∧
    dequeuesBefore (submit_video_processing task_id TaskPriority.high)
      (submit_video_processing task_id TaskPriority.normal) ∧
    dequeuesBefore (submit_video_processing task_id TaskPriority.normal)
      (submit_video_processing task_id TaskPriority.low) := by
  refine ⟨rfl, rfl, rfl, rfl, ?_, rfl, ?_, ?_, ?_⟩
  · intro hs
    simp only [TaskPriority.value, List.mem_cons, List.not_mem_nil, or_false, not_or] at hs
    simp [get_priority_value, TaskPriority.value, hs.1, hs.2.1, hs.2.2.1, hs.2.2.2]
  · unfold dequeuesBefore submit_video_processing get_priority_value TaskPriority.value
    refine ⟨rfl, ?_⟩
    dsimp only
    decide
  · unfold dequeuesBefore submit_video_processing get_priority_value TaskPriority.value
    refine ⟨rfl, ?_⟩
    dsimp only
    decide
  · unfold dequeuesBefore submit_video_processing get_priority_value TaskPriority.value
    refine ⟨rfl, ?_⟩
    dsimp only
    decide

/-- C8 witness: the out-of-enum key `"bogus"` maps to the default 6. -/
theorem C8_priority_map_witness :
    ("bogus" ∉ [TaskPriority.low.value, TaskPriority.normal.value, TaskPriority.high.value,
                TaskPriority.critical.value]) ∧
    get_priority_value "bogus" = 6 := by
  have h : ("bogus" : String) ∉ [TaskPriority.low.value, TaskPriority.normal.value,
      TaskPriority.high.value, TaskPriority.critical.value] := by decide
  exact ⟨h, (C8_priority_map TaskPriority.low "bogus" "t1").2.2.2.2.1 h⟩

/-- C9: under any sequence of `QueueService` operations starting from a
store whose keys are duplicate-free (any Python dict), the in-process
task store keeps at most one record per `task_id`; in particular
`create_task` on an id already present replaces the existing record —
the store size is unchanged and the id now maps to the freshly stamped
record. -/
theorem C9_store_unique (tasks : QSStore) (ops : List QOp) (h : keysNodup tasks) :
    keysNodup (applyOps tasks ops) ∧
    (∀ (task_data : Payload) (now tid : String),
        lookupKey task_data "task_id" = some (PyVal.str tid) → tid ≠ "" →
        (lookupKey tasks tid).isSome →
        (applyOp tasks (QOp.create task_data now)).length = tasks.length ∧
        lookupKey (applyOp tasks (QOp.create task_data now)) tid
          = some (stampTimestamps task_data now)) := by
  refine ⟨keysNodup_applyOps ops tasks h, ?_⟩
  intro task_data now tid hlook hne hsome
  have hok : create_task tasks task_data now
      = Except.ok (tid, dictInsert tasks tid (stampTimestamps task_data now)) := by
    unfold create_task
    rw [hlook]
    simp [hne]
  constructor
  · simp only [applyOp, hok]
    exact dictInsert_length_of_isSome tasks tid _ hsome
  · simp only [applyOp, hok]
    exact lookupKey_dictInsert_self tasks tid _

/-- C9 witness: on the concrete store and operation sequence, uniqueness
is preserved and re-creating `"t1"` replaces its record in place. -/
theorem C9_store_unique_witness :
    keysNodup demoQSStore ∧
    keysNodup (applyOps demoQSStore demoOps) ∧
    lookupKey demoTaskRecord "task_id" = some (PyVal.str "t1") ∧
    (lookupKey demoQSStore "t1").isSome = true ∧
    (applyOp demoQSStore (QOp.create demoTaskRecord "2026-01-02T00:00:00")).length
      = demoQSStore.length ∧
    lookupKey (applyOp demoQSStore (QOp.create demoTaskRecord "2026-01-02T00:00:00")) "t1"
      = some (stampTimestamps demoTaskRecord "2026-01-02T00:00:00") := by
  have h : keysNodup demoQSStore := by decide
  have h2 := (C9_store_unique demoQSStore demoOps h).2 demoTaskRecord
    "2026-01-02T00:00:00" "t1" rfl (by decide) rfl
  exact ⟨h, (C9_store_unique demoQSStore demoOps h).1, rfl, rfl, h2.1, h2.2⟩

/-- C10: `QueueService.update_task_status` is a complete no-op on the
store when `task_id` is absent; when present, the stored record is
replaced by `updatedTaskRecord`, which rewrites exactly `status`,
`progress` and `updated_at`, writes `message`/`error_message` only when
the corresponding argument is non-empty (otherwise their previous values
are preserved), leaves every other field unchanged, and every other
task's record is untouched. -/
theorem C10_update_frame (tasks : QSStore) (task_id status : String) (progressArg : ℚ)
    (message error now : String) :
    (lookupKey tasks task_id = Option.none →
        qs_update_task_status tasks task_id status progressArg message error now = tasks) ∧
    (∀ task, lookupKey tasks task_id = some task →
        lookupKey (qs_update_task_status tasks task_id status progressArg message error now)
            task_id
          = some (updatedTaskRecord task status progressArg message error now) ∧
        lookupKey (updatedTaskRecord task status progressArg message error now) "status"
          = some (PyVal.str status) ∧
        lookupKey (updatedTaskRecord task status progressArg message error now) "progress"
          = some (PyVal.rat progressArg) ∧
        lookupKey (updatedTaskRecord task status progressArg message error now) "updated_at"
          = some (PyVal.str now) ∧
        (message = "" →
            lookupKey (updatedTaskRecord task status progressArg message error now) "message"
              = lookupKey task "message") ∧
        (message ≠ "" →
            lookupKey (updatedTaskRecord task status progressArg message error now) "message"
              = some (PyVal.str message)) ∧
        (error = "" →
            lookupKey (updatedTaskRecord task status progressArg message error now)
                "error_message"
              = lookupKey task "error_message") ∧
        (error ≠ "" →
            lookupKey (updatedTaskRecord task status progressArg message error now)
                "error_message"
              = some (PyVal.str error)) ∧
        (∀ k, k ∉ (["status", "progress", "updated_at", "message", "error_message"] :
              List String) →
            lookupKey (updatedTaskRecord task status progressArg message error now) k
              = lookupKey task k)) ∧
    (∀ tid, tid ≠ task_id →
        lookupKey (qs_update_task_status tasks task_id status progressArg message error now)
            tid
          = lookupKey tasks tid) := by
  refine ⟨?_, ?_, ?_⟩
  · intro h
    simp [qs_update_task_status, h]
  · intro task htask
    refine ⟨?_, ?_, ?_, ?_, ?_, ?_, ?_, ?_, ?_⟩
    · simp [qs_update_task_status, htask, lookupKey_dictInsert_self]
    · by_cases hm : message = "" <;> by_cases he : error = "" <;>
        simp [updatedTaskRecord, hm, he, lookupKey_dictInsert]
    · by_cases hm : message = "" <;> by_cases he : error = "" <;>
        simp [updatedTaskRecord, hm, he, lookupKey_dictInsert]
    · by_cases hm : message = "" <;> by_cases he : error = "" <;>
        simp [updatedTaskRecord, hm, he, lookupKey_dictInsert]
    · intro hm
      by_cases he : error = "" <;>
        simp [updatedTaskRecord, hm, he, lookupKey_dictInsert]
    · intro hm
      by_cases he : error = "" <;>
        simp [updatedTaskRecord, hm, he, lookupKey_dictInsert]
    · intro he
      by_cases hm : message = "" <;>
        simp [updatedTaskRecord, hm, he, lookupKey_dictInsert]
    · intro he
      by_cases hm : message = "" <;>
        simp [updatedTaskRecord, hm, he, lookupKey_dictInsert]
    · intro k hk
      simp only [List.mem_cons, List.not_mem_nil, or_false, not_or] at hk
      obtain ⟨h1, h2, h3, h4, h5⟩ := hk
      by_cases hm : message = "" <;> by_cases he : error = "" <;>
        simp [updatedTaskRecord, hm, he, lookupKey_dictInsert,
              Ne.symm h1, Ne.symm h2, Ne.symm h3, Ne.symm h4, Ne.symm h5]
  · intro tid htid
    cases hl : lookupKey tasks task_id with
    | none => simp [qs_update_task_status, hl]
    | some task =>
      simp [qs_update_task_status, hl,
            lookupKey_dictInsert_ne tasks task_id tid _ htid]

/-- C10 witness: on the concrete store, updating `"t1"` with an empty
`error` argument writes status/progress/updated_at, writes the non-empty
message, preserves the absent `error_message`, and leaves the
`video_url` field unchanged. -/
theorem C10_update_frame_witness :
    lookupKey demoQSStore "t1" = some demoTaskRecord ∧
    lookupKey (qs_update_task_status demoQSStore "t1" "completed" 1 "done" ""
        "2026-01-03T00:00:00") "t1"
      = some (updatedTaskRecord demoTaskRecord "completed" 1 "done" ""
          "2026-01-03T00:00:00") ∧
    lookupKey (updatedTaskRecord demoTaskRecord "completed" 1 "done" ""
        "2026-01-03T00:00:00") "status" = some (PyVal.str "completed") ∧
    lookupKey (updatedTaskRecord demoTaskRecord "completed" 1 "done" ""
        "2026-01-03T00:00:00") "error_message"
      = lookupKey demoTaskRecord "error_message" ∧
    lookupKey (updatedTaskRecord demoTaskRecord "completed" 1 "done" ""
        "2026-01-03T00:00:00") "video_url" = lookupKey demoTaskRecord "video_url" := by
  have h := (C10_update_frame demoQSStore "t1" "completed" 1 "done" ""
      "2026-01-03T00:00:00").2.1 demoTaskRecord rfl
  exact ⟨rfl, h.1, h.2.1, h.2.2.2.2.2.2.1 rfl,
         h.2.2.2.2.2.2.2.2 "video_url" (by decide)⟩

end Video2Doc
